import Mathlib

/-!
Shallow embedding of the StreamGL streaming server (`src/server.js`) and
verification of its specification's claims about the per-connection delivery
loop, transfer tracker, snapshot cache, texture pipeline and HTTP endpoints.

Conventions of the embedding: socket ids are `Nat`, buffer names are
`String`, binary payloads and graph snapshots are `Nat` (their content is
opaque to the control flow being verified), Rx replay subjects are modelled
by the latest value they hold, and observable sequences by lists of the
values they emit.  A computation that may suspend forever is modelled with
`Option` (`none` = suspended).
-/

namespace StreamGL


/-! ### Transfer tracker

`src/server.js` lines 260-274.  Each notification cycle installs

  var transferredBuffers = [];
  finishBufferTransfers[socket.id] = function (bufferName) ...
      transferredBuffers.push(bufferName);
      if (transferredBuffers.length === activeBuffers.length) ...
          sendingAllBuffers.onNext();

The closure state is the pair of `activeBuffers` (the expected buffer-name
list, from the render configuration) and `transferredBuffers` (every pulled
name so far, duplicates included).
-/

structure Tracker where
  activeBuffers : List String
  transferredBuffers : List String
deriving DecidableEq

/-- `finishBufferTransfers[socket.id](bufferName)`: push the name onto
`transferredBuffers` (duplicates included; membership is never tested) and
report whether `sendingAllBuffers.onNext()` fires, which happens exactly when
the pushed list's length equals `activeBuffers.length`. -/
def Tracker.recordPull (t : Tracker) (bufferName : String) : Tracker × Bool :=
  let tb := t.transferredBuffers ++ [bufferName]
  ({ t with transferredBuffers := tb }, tb.length == t.activeBuffers.length)

/-- The tracker as installed at the start of a cycle (state 3 of the loop):
`transferredBuffers` resets to the empty list. -/
def freshTracker (activeBuffers : List String) : Tracker :=
  { activeBuffers := activeBuffers, transferredBuffers := [] }

/-- Run a sequence of pulls through the tracker, returning the final tracker
and how many times the completion signal fired. -/
def Tracker.runPulls : Tracker → List String → Tracker × Nat
  | t, [] => (t, 0)
  | t, p :: ps =>
    let r := t.recordPull p
    let rest := r.1.runPulls ps
    (rest.1, (if r.2 then 1 else 0) + rest.2)

/-! ### Throttle stage

`src/server.js` lines 245-254.  The cycle's second stage is

  clientReady.filter(_.identity).take(1)
    .do(function () ... clientReady.onNext(false); ...)

where `clientReady` is an `Rx.ReplaySubject(1)`.  A subscriber of the replay
subject observes its current value followed by every value pushed afterwards;
the only producer pushing while this stage waits is the `received_buffers`
socket handler, which pushes `true`.
-/

/-- The throttle stage, fed the replay subject's current value and the list
of values pushed onto the subject while it waits.  `none` models suspending
forever (no truthy value ever observed).  On the first truthy value the
`do` callback pushes `false`, so the stage resolves to `some (v, rest)` where
`v` is the subject's current value right after proceeding (always `false`)
and `rest` the pushed values not yet consumed. -/
def throttle : Bool → List Bool → Option (Bool × List Bool)
  | true, evs => some (false, evs)
  | false, [] => none
  | false, true :: evs => some (false, evs)
  | false, false :: evs => throttle false evs

/-! ### Per-connection delivery loop

`src/server.js` lines 235-310: the body of `graph.expand(function (graph)
...)`.  One cycle is: state 1 fetch (`driver.fetchData` then store the result
in `lastCompressedVbos[socket.id]`), state 2 throttle (above), state 3 notify
and await full delivery (`sendingAllBuffers.take(1)` resolves iff the freshly
installed tracker fires), state 4 await next tick (`ticksMulti.take(1)`), and
finally `.map(_.constant(graph))` — the value fed back into `expand` for the
next cycle is the `graph` parameter this cycle started with, not the tick
value received in state 4.
-/

structure CycleOut where
  /-- Current value of the `clientReady` subject at the moment state 3 emits
  the `vbo_update` notification. -/
  notifiedReady : Bool
  /-- The compressed buffer set stored in `lastCompressedVbos[socket.id]`. -/
  vbos : List (String × Nat)
  /-- The tick received from `ticksMulti.take(1)` in state 4. -/
  deliveredTick : Nat
  /-- The value `.map(_.constant(graph))` feeds back into `expand`: the
  snapshot the next cycle enters state 1 with. -/
  nextSnapshot : Nat
deriving DecidableEq

/-- One cycle of the per-connection delivery loop.  `fetchData` abstracts
`driver.fetchData` applied to the current snapshot; `ready`/`readyEvents`
feed the throttle; `pulls` is the sequence of `/vbo` pulls routed to this
connection's tracker during state 3; `ticks` the ticks the broadcaster emits
during state 4.  `none` models a cycle suspended forever at one of its three
waits. -/
def runCycle (activeBuffers : List String)
    (fetchData : Nat → List (String × Nat)) (ready : Bool)
    (readyEvents : List Bool) (pulls : List String) (ticks : List Nat)
    (g : Nat) : Option CycleOut :=
  let vbos := fetchData g
  match throttle ready readyEvents with
  | none => none
  | some (r, _) =>
    if ((freshTracker activeBuffers).runPulls pulls).2 = 0 then
      none
    else
      match ticks with
      | [] => none
      | t :: _ =>
        some { notifiedReady := r, vbos := vbos, deliveredTick := t,
               nextSnapshot := g }

/-! ### Tick broadcaster and snapshot cache

`src/server.js` lines 66-72:

  animStep = driver.create();
  ticksMulti = animStep.ticks.publish();
  ticksMulti.connect();
  graph = new Rx.ReplaySubject(1);
  ticksMulti.take(1).subscribe(graph);

`graph` is the snapshot cache.  Because it subscribes through `take(1)`, the
only value it ever receives is the first tick the broadcaster emits in the
epoch, and an `Rx.ReplaySubject(1)` replays to a late subscriber the last
value it received.
-/

/-- The last value pushed into an `Rx.ReplaySubject(1)`, which is what it
replays to a newly attached subscriber (`none`: nothing pushed yet, the
subscriber waits). -/
def replayLatest (pushed : List Nat) : Option Nat := pushed.getLast?

/-- What the snapshot cache `graph` holds after the epoch's broadcaster has
emitted `ticks`: the cache subscribed via `ticksMulti.take(1)`, so it
received only the first tick. -/
def snapshotCacheValue (ticks : List Nat) : Option Nat :=
  replayLatest (ticks.take 1)

/-! ### Global session state and reset

`src/server.js` lines 38-50 declare the globals (`lastCompressedVbos`,
`finishBufferTransfers`, `animStep`, `ticksMulti`, `graph`) and lines 57-76
define `resetState()`.  Object identities of the Rx/driver instances are
modelled by numeric instance ids drawn from a monotone counter `nextId`, so
that "constructs a new instance" is expressible: any previously constructed
instance has an id below `nextId`.
-/

structure GlobalState where
  /-- `lastCompressedVbos`: socket id → compressed buffer set. -/
  lastCompressedVbos : List (Nat × List (String × Nat))
  /-- `finishBufferTransfers`: socket id → installed transfer tracker. -/
  finishBufferTransfers : List (Nat × Tracker)
  /-- Instance id of the current `animStep = driver.create()`. -/
  animStep : Nat
  /-- Instance id of the animation source whose `ticks` the broadcaster
  `ticksMulti = animStep.ticks.publish()` wraps. -/
  ticksMultiSource : Nat
  /-- Whether `ticksMulti.connect()` has been called (broadcasting active,
  independent of any subscriber count). -/
  ticksMultiConnected : Bool
  /-- Instance id of the broadcaster the snapshot cache `graph` subscribed
  to via `ticksMulti.take(1).subscribe(graph)`. -/
  graphCacheSource : Nat
  /-- Fresh-instance counter: every instance id constructed so far is
  below it. -/
  nextId : Nat
deriving DecidableEq

/-- `resetState()` (`src/server.js` lines 57-76): empty both per-connection
maps, create a new animation source, publish and immediately connect a new
broadcaster over its ticks, and subscribe a new replay-1 snapshot cache to
the broadcaster's first tick. -/
def resetState (s : GlobalState) : GlobalState :=
  let fresh := s.nextId
  { lastCompressedVbos := []
    finishBufferTransfers := []
    animStep := fresh
    ticksMultiSource := fresh
    ticksMultiConnected := true
    graphCacheSource := fresh
    nextId := fresh + 1 }

/-- Per-connection session state created by `io.on('connection', ...)`
(`src/server.js` lines 193-232): `clientReady` is the latest value of the
connection's `Rx.ReplaySubject(1)`. -/
structure ConnSession where
  socketId : Nat
  clientReady : Bool
deriving DecidableEq

/-- The connection handler (`src/server.js` lines 193-232): registers the
socket with an empty compressed-buffer set
(`lastCompressedVbos[socket.id] = {};`) and creates
`clientReady = new Rx.ReplaySubject(1); clientReady.onNext(true);`. -/
def onConnection (g : GlobalState) (sid : Nat) : GlobalState × ConnSession :=
  ({ g with lastCompressedVbos := (sid, []) :: g.lastCompressedVbos },
   { socketId := sid, clientReady := true })

/-- The `received_buffers` handler (`src/server.js` lines 227-230): logs the
round-trip time and pushes `true` onto `clientReady`. -/
def onReceivedBuffers (c : ConnSession) (_roundTripTimeMs : Nat) :
    ConnSession :=
  { c with clientReady := true }

/-- The `disconnect` handler (`src/server.js` lines 199-202): deletes only
the `lastCompressedVbos` entry (the tracker entry is left in place). -/
def onDisconnect (g : GlobalState) (sid : Nat) : GlobalState :=
  { g with lastCompressedVbos :=
      g.lastCompressedVbos.filter (fun p => p.1 != sid) }

/-! ### The `/vbo` delivery endpoint

`src/server.js` lines 106-122 (registered a second time verbatim at lines
156-172):

  try ...
      res.set(...); res.send(lastCompressedVbos[id][bufferName]);
  ... catch (e) ... console.error('bad request', ...); ...
  finishBufferTransfers[id](bufferName);

Inside the try/catch, an unknown `id` makes `lastCompressedVbos[id]` come out
`undefined` and the member access on it throw, which is caught and logged; a
known `id` with an absent buffer name sends `undefined`.  The tracker call on
the last line is outside the handler's own try/catch: when no tracker is
installed for `id`, `finishBufferTransfers[id]` is `undefined` and invoking
it throws a TypeError out of the handler FUNCTION — but Express invokes
route handlers inside its own try/catch (`Layer.handle_request`), forwards a
synchronous throw to its default error handler, which logs it to stderr and
tears down the request; the process keeps serving.  From the outside the
request is a logged-and-ignored error and a no-op on all tracker state.
-/

inductive VboOutcome
  /-- `res.send` was reached; `none` payload models sending the `undefined`
  member of an existing buffer set. -/
  | sent (payload : Option Nat)
  /-- The catch branch ran: `console.error('bad request', ...)`. -/
  | errorLogged
deriving DecidableEq

inductive VboResult
  /-- The tracker call ran; `fired` says whether the completion signal
  fired on this pull. -/
  | handled (outcome : VboOutcome) (fired : Bool)
  /-- `finishBufferTransfers[id]` was `undefined`: the TypeError thrown by
  invoking it escapes the handler function and is caught and logged by the
  Express routing layer; the process keeps serving. -/
  | trackerErrorLogged (outcome : VboOutcome)
deriving DecidableEq

/-- The try/catch portion of the `/vbo` handler. -/
def vboLookup (g : GlobalState) (id : Nat) (bufferName : String) :
    VboOutcome :=
  match g.lastCompressedVbos.lookup id with
  | none => VboOutcome.errorLogged
  | some vbos => VboOutcome.sent (vbos.lookup bufferName)

/-- In-place update of the tracker map entry for `id` (assignment to
`finishBufferTransfers[id]`'s closure state). -/
def updateAssoc : List (Nat × Tracker) → Nat → Tracker →
    List (Nat × Tracker)
  | [], _, _ => []
  | p :: l, id, t => (if p.1 = id then (id, t) else p) :: updateAssoc l id t

/-- The whole `/vbo` handler: try/catch lookup-and-send, then the
unconditional `finishBufferTransfers[id](bufferName)`. -/
def vboHandler (g : GlobalState) (id : Nat) (bufferName : String) :
    VboResult × GlobalState :=
  let outcome := vboLookup g id bufferName
  match g.finishBufferTransfers.lookup id with
  | none => (VboResult.trackerErrorLogged outcome, g)
  | some t =>
    let r := t.recordPull bufferName
    (VboResult.handled outcome r.2,
     { g with finishBufferTransfers :=
        updateAssoc g.finishBufferTransfers id r.1 })

/-- The pristine state preceding the module-level `resetState()` call:
nothing constructed yet, instance id 0 reserved as a dummy below the
counter. -/
def freshStart : GlobalState :=
  { lastCompressedVbos := []
    finishBufferTransfers := []
    animStep := 0
    ticksMultiSource := 0
    ticksMultiConnected := false
    graphCacheSource := 0
    nextId := 1 }

/-- A server state whose only connection (id 1) has a tracker installed for
expected buffers a and b, but whose compressed-buffer map is empty (as after
a disconnect, which deletes only the `lastCompressedVbos` entry). -/
def stateWithTracker : GlobalState :=
  { lastCompressedVbos := []
    finishBufferTransfers := [(1, freshTracker ["a", "b"])]
    animStep := 0
    ticksMultiSource := 0
    ticksMultiConnected := true
    graphCacheSource := 0
    nextId := 1 }

/-! ### Texture pipeline and the `/texture` endpoint

`src/server.js` lines 124-152:

  var colorTexture = new Rx.ReplaySubject(1);
  var img = Rx.Observable.fromNodeCallback(fs.readFile)(...).flatMap(...);
  img.take(1).subscribe(colorTexture);

`img` is a cold observable describing the one load-and-compress computation;
the single `subscribe` at module start is the only subscription of `img` in
the program, so the computation is started exactly once, no matter how many
connections or `/texture` requests follow.  Every `/texture` request (lines
174-189) subscribes `colorTexture` — the replay subject — which delivers the
cached result immediately when present and otherwise delivers it when the
pipeline completes.
-/

inductive TexEvent
  /-- A new socket connection (touches nothing in the texture pipeline). -/
  | connect
  /-- A `GET /texture` request subscribing `colorTexture`. -/
  | pull
  /-- The `img` chain completes, pushing the compressed payload into
  `colorTexture`; via `take(1)` only the first completion is received. -/
  | loadCompleted (payload : Nat)
deriving DecidableEq

structure TexState where
  /-- How many times the load-and-compress chain has been subscribed
  (started). -/
  computeRuns : Nat
  /-- The replay subject's cached value. -/
  cached : Option Nat
  /-- `/texture` requests currently waiting on `colorTexture`. -/
  pending : Nat
  /-- Payloads delivered to `/texture` requests so far, in order. -/
  delivered : List Nat
deriving DecidableEq

/-- The pipeline state right after module start:
`img.take(1).subscribe(colorTexture)` has subscribed the computation once
and nothing has completed or been requested yet. -/
def texStart : TexState :=
  { computeRuns := 1, cached := none, pending := 0, delivered := [] }

/-- One event against the texture pipeline.  A pull is answered immediately
from the replay cache when it is filled and otherwise waits; a completion
fills the cache and answers every waiting pull with the same payload; no
event subscribes `img` again. -/
def texStep (s : TexState) : TexEvent → TexState
  | TexEvent.connect => s
  | TexEvent.pull =>
    match s.cached with
    | some v => { s with delivered := s.delivered ++ [v] }
    | none => { s with pending := s.pending + 1 }
  | TexEvent.loadCompleted v =>
    match s.cached with
    | some _ => s
    | none =>
      { s with cached := some v,
               delivered := s.delivered ++ List.replicate s.pending v,
               pending := 0 }

def texRun (s : TexState) : List TexEvent → TexState
  | [] => s
  | e :: es => texRun (texStep s e) es

/-- The `/texture` endpoint (`src/server.js` lines 174-189): it reads the
`texture` and `id` query parameters into locals but never consults them; the
response is `colorTexture.pluck('buffer')`, i.e. the shared cached payload
(`none` = the subscription is still waiting on the pipeline). -/
def textureHandler (textureName : String) (id : Nat) (s : TexState) :
    Option Nat :=
  s.cached

/-! ### Theorems -/

theorem Tracker.recordPull_fst (t : Tracker) (b : String) :
    (t.recordPull b).1 =
      { t with transferredBuffers := t.transferredBuffers ++ [b] } := rfl

theorem Tracker.recordPull_activeBuffers (t : Tracker) (b : String) :
    (t.recordPull b).1.activeBuffers = t.activeBuffers := rfl

/-- The number of completion-signal firings depends only on the two list
lengths: the signal fires (once) iff the pull sequence is long enough to make
`transferredBuffers` pass through length `activeBuffers.length` from below. -/
theorem Tracker.runPulls_snd (t : Tracker) (ps : List String) :
    (t.runPulls ps).2 =
      if t.transferredBuffers.length < t.activeBuffers.length ∧
          t.activeBuffers.length ≤ t.transferredBuffers.length + ps.length
      then 1 else 0 := by
  induction ps generalizing t with
  | nil =>
    simp only [Tracker.runPulls, List.length_nil, Nat.add_zero]
    split
    · omega
    · rfl
  | cons p ps ih =>
    simp only [Tracker.runPulls, ih, Tracker.recordPull, List.length_append,
      List.length_cons, List.length_singleton, List.length_nil, beq_iff_eq]
    split_ifs <;> omega

/-- Claim C1 counterexample: with expected buffer set of size 2
(names a and b), pulling the single name a twice makes the completion signal
fire, although only one distinct name has been pulled.  The tracker counts
total pulls, not distinct names, so duplicate pulls do count toward
completion, contradicting the claim. -/
theorem c1_counterexample :
    ((freshTracker ["a", "b"]).runPulls ["a", "a"]).2 = 1 ∧
    (["a", "a"] : List String).dedup.length = 1 ∧ (1 : Nat) ≠ 2 := by
  refine ⟨by decide, by decide, by decide⟩

/-- Claim C1 (amended): for a cycle with expected buffer-name list of size
k ≥ 1, the completion signal fires exactly once provided at least k pulls
arrive, and it has not yet fired after the first k-1 pulls — i.e. it is
triggered by the k-th pull counting every pull (duplicates and unexpected
names included), not by the k-th distinct name. -/
theorem c1_fires_once_at_kth_pull (bs ps : List String)
    (h1 : 1 ≤ bs.length) (h2 : bs.length ≤ ps.length) :
    ((freshTracker bs).runPulls ps).2 = 1 ∧
    ((freshTracker bs).runPulls (ps.take (bs.length - 1))).2 = 0 := by
  constructor
  · rw [Tracker.runPulls_snd]
    simp [freshTracker]
    omega
  · rw [Tracker.runPulls_snd]
    simp [freshTracker]
    intro h
    omega

/-- Witness for C1 (amended) at k = 2, pull sequence of length 3. -/
theorem c1_fires_once_at_kth_pull_witness :
    ((freshTracker ["a", "b"]).runPulls ["b", "a", "b"]).2 = 1 ∧
    ((freshTracker ["a", "b"]).runPulls (["b", "a", "b"].take 1)).2 = 0 := by
  have h := c1_fires_once_at_kth_pull ["a", "b"] ["b", "a", "b"]
    (by decide) (by decide)
  exact h

theorem throttle_proceeds_false (r : Bool) (evs : List Bool) (v : Bool)
    (rest : List Bool) (h : throttle r evs = some (v, rest)) : v = false := by
  induction evs generalizing r with
  | nil =>
    cases r
    · simp [throttle] at h
    · simp [throttle] at h
      exact h.1
  | cons e evs ih =>
    cases r
    · cases e
      · exact ih false h
      · simp [throttle] at h
        exact h.1
    · simp [throttle] at h
      exact h.1

theorem throttle_never_ready (evs : List Bool)
    (h : ∀ e ∈ evs, e = false) : throttle false evs = none := by
  induction evs with
  | nil => rfl
  | cons e evs ih =>
    have he : e = false := h e (List.mem_cons_self e evs)
    subst he
    exact ih fun x hx => h x (List.mem_cons_of_mem false hx)

/-- Claim C2: the throttle stage proceeds immediately (consuming no events)
when the readiness flag is already true; whenever it proceeds, the readiness
flag has been cleared to false; the cycle's `vbo_update` notification is only
emitted with the flag already false; and if the flag is false and no
`received_buffers` arrives, the stage (and hence a second concurrent cycle)
never proceeds. -/
theorem c2_throttle_gating (r : Bool) (evs : List Bool)
    (activeBuffers : List String) (fetchData : Nat → List (String × Nat))
    (pulls : List String) (ticks : List Nat) (g : Nat) :
    (r = true → throttle r evs = some (false, evs)) ∧
    (∀ v rest, throttle r evs = some (v, rest) → v = false) ∧
    (∀ v rest, throttle r evs = some (v, rest) →
      (∀ e ∈ rest, e = false) → throttle v rest = none) ∧
    (∀ out, runCycle activeBuffers fetchData r evs pulls ticks g = some out →
      out.notifiedReady = false) := by
  refine ⟨?_, ?_, ?_, ?_⟩
  · rintro rfl
    simp [throttle]
  · exact fun v rest h => throttle_proceeds_false r evs v rest h
  · intro v rest h hrest
    have hv : v = false := throttle_proceeds_false r evs v rest h
    subst hv
    exact throttle_never_ready rest hrest
  · intro out hout
    unfold runCycle at hout
    cases hth : throttle r evs with
    | none => simp [hth] at hout
    | some p =>
      obtain ⟨v, rest⟩ := p
      have hv : v = false := throttle_proceeds_false r evs v rest hth
      simp only [hth] at hout
      split at hout
      · exact absurd hout (by simp)
      · cases ticks with
        | nil => simp at hout
        | cons t ts =>
          simp only [Option.some_inj] at hout
          subst hout
          exact hv

/-- Witness for C2: with the flag initially true the stage proceeds at once
clearing the flag, and with the flag false and no arrival it suspends. -/
theorem c2_throttle_gating_witness :
    throttle true [false] = some (false, [false]) ∧
    throttle false [false] = none := by
  have h := c2_throttle_gating true [false] ["a"] (fun _ => []) [] [] 0
  have ha := h.1 rfl
  refine ⟨ha, h.2.2.1 false [false] ha ?_⟩
  intro e he
  simp only [List.mem_singleton] at he
  exact he

/-- Claim C3 counterexample: a cycle that starts with snapshot 0, completes
delivery, and then receives tick 1 in state 4 re-enters the loop with
snapshot 0 — not with the newly delivered tick 1.  `.map(_.constant(graph))`
discards the tick value and feeds the cycle's own `graph` parameter back. -/
theorem c3_counterexample :
    (runCycle ["a"] (fun g => [("a", g)]) true [] ["a"] [1]
        0).map CycleOut.deliveredTick = some 1 ∧
    (runCycle ["a"] (fun g => [("a", g)]) true [] ["a"] [1]
        0).map CycleOut.nextSnapshot = some 0 ∧
    (some (0 : Nat) ≠ some 1) := by
  refine ⟨by decide, by decide, by decide⟩

/-- Claim C3 (amended): whenever a cycle completes, state 4 consumed exactly
the first tick the broadcaster emitted during the wait, but the loop
re-enters the Fetch state with the same snapshot value the cycle started
with — the newly delivered tick's value is discarded by
`.map(_.constant(graph))`. -/
theorem c3_next_cycle_snapshot (activeBuffers : List String)
    (fetchData : Nat → List (String × Nat)) (ready : Bool)
    (readyEvents : List Bool) (pulls : List String) (ticks : List Nat)
    (g : Nat) (out : CycleOut)
    (h : runCycle activeBuffers fetchData ready readyEvents pulls ticks g =
      some out) :
    out.nextSnapshot = g ∧ ticks.head? = some out.deliveredTick := by
  unfold runCycle at h
  cases hth : throttle ready readyEvents with
  | none => simp [hth] at h
  | some p =>
    obtain ⟨v, rest⟩ := p
    simp only [hth] at h
    split at h
    · exact absurd h (by simp)
    · cases ticks with
      | nil => simp at h
      | cons t ts =>
        simp only [Option.some_inj] at h
        subst h
        exact ⟨rfl, rfl⟩

/-- Witness for C3 (amended) at a concrete completed cycle. -/
theorem c3_next_cycle_snapshot_witness :
    CycleOut.nextSnapshot
        { notifiedReady := false, vbos := [("a", 5)], deliveredTick := 9,
          nextSnapshot := 5 } = 5 ∧
    ([9, 7] : List Nat).head? = some (CycleOut.deliveredTick
        { notifiedReady := false, vbos := [("a", 5)], deliveredTick := 9,
          nextSnapshot := 5 }) :=
  c3_next_cycle_snapshot ["a"] (fun g => [("a", g)]) true [] ["a"] [9, 7] 5
    { notifiedReady := false, vbos := [("a", 5)], deliveredTick := 9,
      nextSnapshot := 5 } (by decide)

/-- Claim C4 counterexample: after the epoch has produced ticks 10 then 20,
a newly attached subscriber is immediately replayed tick 10 — the first tick
of the epoch — and not the most recently produced tick 20. -/
theorem c4_counterexample :
    snapshotCacheValue [10, 20] = some 10 ∧
    ([10, 20] : List Nat).getLast? = some 20 ∧
    (some (10 : Nat) ≠ some 20) := by
  refine ⟨by decide, by decide, by decide⟩

/-- Claim C4 (amended): a subscriber that attaches after one or more ticks
have been produced in the current epoch immediately observes a cached
snapshot without waiting for a new tick — but it is the epoch's first tick,
not its most recent one. -/
theorem c4_replays_first_tick (t : Nat) (ts : List Nat) :
    snapshotCacheValue (t :: ts) = some t := by
  simp [snapshotCacheValue, replayLatest]

theorem lookup_updateAssoc (l : List (Nat × Tracker)) (id : Nat)
    (t t0 : Tracker) (h : l.lookup id = some t0) :
    (updateAssoc l id t).lookup id = some t := by
  induction l with
  | nil => simp [List.lookup] at h
  | cons p l ih =>
    obtain ⟨k, v⟩ := p
    simp only [updateAssoc]
    by_cases hk : k = id
    · subst hk
      rw [if_pos rfl]
      simp [List.lookup]
    · have hne : (id == k) = false := by
        simp only [beq_eq_false_iff_ne, ne_eq]
        exact fun he => hk he.symm
      simp only [List.lookup, hne] at h
      rw [if_neg hk]
      simp only [List.lookup, hne]
      exact ih h

/-- Claim C7: `resetState` empties both per-connection maps, constructs a
fresh animation source (an instance id never used before), wraps its tick
sequence in a broadcaster that is connected immediately, and subscribes a new
snapshot cache to that same new broadcaster; running it a second time
re-establishes the same postcondition (with yet another fresh instance). -/
theorem c7_reset_postcondition (s : GlobalState)
    (h : s.animStep < s.nextId) :
    (resetState s).lastCompressedVbos = [] ∧
    (resetState s).finishBufferTransfers = [] ∧
    (resetState s).animStep ≠ s.animStep ∧
    (resetState s).ticksMultiSource = (resetState s).animStep ∧
    (resetState s).ticksMultiConnected = true ∧
    (resetState s).graphCacheSource = (resetState s).animStep ∧
    (resetState s).animStep < (resetState s).nextId ∧
    (resetState (resetState s)).lastCompressedVbos = [] ∧
    (resetState (resetState s)).finishBufferTransfers = [] ∧
    (resetState (resetState s)).animStep ≠ (resetState s).animStep ∧
    (resetState (resetState s)).ticksMultiSource =
      (resetState (resetState s)).animStep ∧
    (resetState (resetState s)).ticksMultiConnected = true ∧
    (resetState (resetState s)).graphCacheSource =
      (resetState (resetState s)).animStep ∧
    (resetState (resetState s)).animStep <
      (resetState (resetState s)).nextId := by
  refine ⟨rfl, rfl, ?_, rfl, rfl, rfl, ?_, rfl, rfl, ?_, rfl, rfl, rfl, ?_⟩
  · simp only [resetState]
    omega
  · simp only [resetState]
    omega
  · simp only [resetState]
    omega
  · simp only [resetState]
    omega

/-- Witness for C7 at the pristine pre-reset state. -/
theorem c7_reset_postcondition_witness :
    (resetState freshStart).lastCompressedVbos = [] ∧
    (resetState freshStart).animStep ≠ freshStart.animStep ∧
    (resetState freshStart).ticksMultiConnected = true := by
  have h := c7_reset_postcondition freshStart (by decide)
  exact ⟨h.1, h.2.2.1, h.2.2.2.2.1⟩

/-- Claim C9: the readiness flag is true the moment a connection is created
(`clientReady.onNext(true)` right after construction), and every
`received_buffers` message sets it true again. -/
theorem c9_ready_flag (g : GlobalState) (sid : Nat) (c : ConnSession)
    (roundTripTimeMs : Nat) :
    (onConnection g sid).2.clientReady = true ∧
    (onReceivedBuffers c roundTripTimeMs).clientReady = true :=
  ⟨rfl, rfl⟩

/-- Claim C5: a `/vbo` pull whose connection id is unknown to the tracker
map (no notification cycle ever installed `finishBufferTransfers[id]`, e.g.
before the connection's first cycle reaches state 3) does not crash the
process.  `finishBufferTransfers[id]` is `undefined` and invoking it throws
a TypeError, but the throw happens inside Express's route-handler
invocation, which catches it, logs it via the default error handler, and
keeps serving: the request resolves to a logged-and-ignored error and the
bookkeeping is a no-op — no tracker state changes at all. -/
theorem c5_unknown_id_logged_ignored (g : GlobalState) (id : Nat)
    (bufferName : String)
    (h : g.finishBufferTransfers.lookup id = none) :
    (vboHandler g id bufferName).1 =
      VboResult.trackerErrorLogged (vboLookup g id bufferName) ∧
    (vboHandler g id bufferName).2 = g := by
  constructor
  · simp [vboHandler, h]
  · simp [vboHandler, h]

/-- Witness for C5: a freshly reset server accepts a connection with socket
id 1 (which installs the empty compressed-buffer set but no tracker); a
`/vbo` pull for buffer a with id 1 is answered with a framework-logged
error and leaves the whole server state untouched. -/
theorem c5_unknown_id_logged_ignored_witness :
    (vboHandler ((onConnection (resetState freshStart) 1).1) 1 ("a")).1 =
      VboResult.trackerErrorLogged
        (vboLookup ((onConnection (resetState freshStart) 1).1) 1 ("a")) ∧
    (vboHandler ((onConnection (resetState freshStart) 1).1) 1 ("a")).2 =
      (onConnection (resetState freshStart) 1).1 :=
  c5_unknown_id_logged_ignored ((onConnection (resetState freshStart) 1).1)
    1 ("a") (by decide)

/-- Claim C6: whenever a tracker is installed for the requesting id, the
`/vbo` handler invokes `recordPull` on it for the requested buffer name no
matter how the buffer lookup went — the response outcome is whatever
`vboLookup` produced (a sent payload, a sent `undefined`, or a logged
error), the stored tracker advances by exactly that name, and the handler
reports the tracker's firing status. -/
theorem c6_recordPull_on_any_outcome (g : GlobalState) (id : Nat)
    (bufferName : String) (t : Tracker)
    (h : g.finishBufferTransfers.lookup id = some t) :
    (vboHandler g id bufferName).1 =
      VboResult.handled (vboLookup g id bufferName)
        (t.recordPull bufferName).2 ∧
    (vboHandler g id bufferName).2.finishBufferTransfers.lookup id =
      some (t.recordPull bufferName).1 ∧
    (t.recordPull bufferName).1.transferredBuffers =
      t.transferredBuffers ++ [bufferName] := by
  refine ⟨?_, ?_, rfl⟩
  · simp [vboHandler, h]
  · simp only [vboHandler, h]
    exact lookup_updateAssoc g.finishBufferTransfers id
      (t.recordPull bufferName).1 t h

/-- Witness for C6: the buffer lookup fails (unknown id in
`lastCompressedVbos`, so the catch branch logs), yet `recordPull` still runs
and advances the tracker by the pulled name. -/
theorem c6_recordPull_on_any_outcome_witness :
    (vboHandler stateWithTracker 1 ("a")).1 =
      VboResult.handled (vboLookup stateWithTracker 1 ("a"))
        ((freshTracker ["a", "b"]).recordPull ("a")).2 ∧
    (vboHandler stateWithTracker 1
        ("a")).2.finishBufferTransfers.lookup 1 =
      some ((freshTracker ["a", "b"]).recordPull ("a")).1 ∧
    ((freshTracker ["a", "b"]).recordPull ("a")).1.transferredBuffers =
      (freshTracker ["a", "b"]).transferredBuffers ++ ["a"] :=
  c6_recordPull_on_any_outcome stateWithTracker 1 ("a")
    (freshTracker ["a", "b"]) (by decide)

theorem texStep_pull_none (s : TexState) (h : s.cached = none) :
    texStep s TexEvent.pull = { s with pending := s.pending + 1 } := by
  simp [texStep, h]

theorem texStep_pull_some (s : TexState) (v : Nat) (h : s.cached = some v) :
    texStep s TexEvent.pull = { s with delivered := s.delivered ++ [v] } := by
  simp [texStep, h]

theorem texStep_load_none (s : TexState) (v : Nat) (h : s.cached = none) :
    texStep s (TexEvent.loadCompleted v) =
      { s with cached := some v,
               delivered := s.delivered ++ List.replicate s.pending v,
               pending := 0 } := by
  simp [texStep, h]

theorem texStep_load_some (s : TexState) (v w : Nat)
    (h : s.cached = some w) :
    texStep s (TexEvent.loadCompleted v) = s := by
  simp [texStep, h]

theorem texStep_computeRuns (s : TexState) (e : TexEvent) :
    (texStep s e).computeRuns = s.computeRuns := by
  cases e with
  | connect => rfl
  | pull =>
    cases hc : s.cached with
    | none => rw [texStep_pull_none s hc]
    | some v => rw [texStep_pull_some s v hc]
  | loadCompleted v =>
    cases hc : s.cached with
    | none => rw [texStep_load_none s v hc]
    | some w => rw [texStep_load_some s v w hc]

theorem texRun_computeRuns (evs : List TexEvent) (s : TexState) :
    (texRun s evs).computeRuns = s.computeRuns := by
  induction evs generalizing s with
  | nil => rfl
  | cons e es ih => rw [texRun, ih, texStep_computeRuns]

/-- Delivery invariant: if the cache holds nothing but `v` and everything
delivered so far is `v`, that stays true along any event sequence whose
completions all carry `v`. -/
theorem texRun_delivered_inv (evs : List TexEvent) (s : TexState) (v : Nat)
    (hc : s.cached = none ∨ s.cached = some v)
    (hd : ∀ x ∈ s.delivered, x = v)
    (hev : ∀ w, TexEvent.loadCompleted w ∈ evs → w = v) :
    ((texRun s evs).cached = none ∨ (texRun s evs).cached = some v) ∧
    ∀ x ∈ (texRun s evs).delivered, x = v := by
  induction evs generalizing s with
  | nil => exact ⟨hc, hd⟩
  | cons e es ih =>
    rw [texRun]
    have hev2 : ∀ w, TexEvent.loadCompleted w ∈ es → w = v :=
      fun w hw => hev w (List.mem_cons_of_mem e hw)
    cases e with
    | connect => exact ih s hc hd hev2
    | pull =>
      rcases hc with h0 | h0
      · rw [texStep_pull_none s h0]
        exact ih _ (Or.inl h0) hd hev2
      · rw [texStep_pull_some s v h0]
        refine ih _ (Or.inr h0) ?_ hev2
        intro x hx
        rcases List.mem_append.mp hx with hx | hx
        · exact hd x hx
        · exact List.mem_singleton.mp hx
    | loadCompleted w =>
      have hw : w = v := hev w (List.mem_cons_self _ es)
      subst hw
      rcases hc with h0 | h0
      · rw [texStep_load_none s w h0]
        refine ih _ (Or.inr rfl) ?_ hev2
        intro x hx
        rcases List.mem_append.mp hx with hx | hx
        · exact hd x hx
        · exact List.eq_of_mem_replicate hx
      · rw [texStep_load_some s w w h0]
        exact ih s (Or.inr h0) hd hev2

/-- Once some completion has been processed the cache stays filled. -/
theorem texRun_cached_isSome (evs : List TexEvent) (s : TexState) (v : Nat)
    (hmem : TexEvent.loadCompleted v ∈ evs ∨ s.cached.isSome = true) :
    ((texRun s evs).cached).isSome = true := by
  induction evs generalizing s with
  | nil =>
    rcases hmem with h | h
    · cases h
    · exact h
  | cons e es ih =>
    rw [texRun]
    rcases hmem with h | h
    · rcases List.mem_cons.mp h with h | h
      · subst h
        refine ih (texStep s (TexEvent.loadCompleted v)) (Or.inr ?_)
        cases hc : s.cached with
        | none =>
          rw [texStep_load_none s v hc]
          rfl
        | some w =>
          rw [texStep_load_some s v w hc, hc]
          rfl
      · exact ih (texStep s e) (Or.inl h)
    · refine ih (texStep s e) (Or.inr ?_)
      cases e with
      | connect => exact h
      | pull =>
        cases hc : s.cached with
        | none =>
          rw [hc] at h
          cases h
        | some w =>
          rw [texStep_pull_some s w hc]
          show s.cached.isSome = true
          exact h
      | loadCompleted w =>
        cases hc : s.cached with
        | none =>
          rw [texStep_load_none s w hc]
          rfl
        | some u =>
          rw [texStep_load_some s w u hc]
          exact h

/-- Bookkeeping: every pull is eventually answered or still pending. -/
theorem texRun_pull_count (evs : List TexEvent) (s : TexState) :
    (texRun s evs).delivered.length + (texRun s evs).pending =
      s.delivered.length + s.pending +
        (evs.filter (fun e => e = TexEvent.pull)).length := by
  induction evs generalizing s with
  | nil => simp [texRun]
  | cons e es ih =>
    rw [texRun, ih]
    cases e with
    | connect => simp [texStep, List.filter]
    | pull =>
      cases hc : s.cached with
      | none =>
        rw [texStep_pull_none s hc]
        simp [List.filter]
        omega
      | some w =>
        rw [texStep_pull_some s w hc]
        simp [List.filter]
        omega
    | loadCompleted w =>
      cases hc : s.cached with
      | none =>
        rw [texStep_load_none s w hc]
        simp [List.filter, List.length_replicate]
      | some u =>
        rw [texStep_load_some s w u hc]
        simp [List.filter]

/-- Claim C8: starting from module start, along any interleaving of
connections, `/texture` pulls and pipeline completions that all carry the
single computed payload v, the load-and-compress computation has still run
exactly once, every payload ever delivered is v, and once some completion
has occurred the cache answers (and no pull ever waits again thereafter:
the cache is filled). -/
theorem c8_texture_computed_once (evs : List TexEvent) (v : Nat)
    (hev : ∀ w, TexEvent.loadCompleted w ∈ evs → w = v) :
    (texRun texStart evs).computeRuns = 1 ∧
    (∀ x ∈ (texRun texStart evs).delivered, x = v) ∧
    (TexEvent.loadCompleted v ∈ evs →
      ((texRun texStart evs).cached).isSome = true) := by
  refine ⟨texRun_computeRuns evs texStart, ?_, ?_⟩
  · exact (texRun_delivered_inv evs texStart v (Or.inl rfl)
      (by intro x hx; cases hx) hev).2
  · intro hmem
    exact texRun_cached_isSome evs texStart v (Or.inl hmem)

/-- Witness for C8: two early pulls wait, the single computation completes
with payload 7, both waiters and a later pull receive 7. -/
theorem c8_texture_computed_once_witness :
    (texRun texStart [TexEvent.pull, TexEvent.connect, TexEvent.pull,
        TexEvent.loadCompleted 7, TexEvent.pull]).computeRuns = 1 ∧
    (∀ x ∈ (texRun texStart [TexEvent.pull, TexEvent.connect, TexEvent.pull,
        TexEvent.loadCompleted 7, TexEvent.pull]).delivered, x = 7) ∧
    (TexEvent.loadCompleted 7 ∈ ([TexEvent.pull, TexEvent.connect,
        TexEvent.pull, TexEvent.loadCompleted 7, TexEvent.pull]) →
      ((texRun texStart [TexEvent.pull, TexEvent.connect, TexEvent.pull,
          TexEvent.loadCompleted 7, TexEvent.pull]).cached).isSome = true) :=
  c8_texture_computed_once
    [TexEvent.pull, TexEvent.connect, TexEvent.pull,
      TexEvent.loadCompleted 7, TexEvent.pull] 7
    (by
      intro w hw
      simp only [List.mem_cons, List.not_mem_nil, or_false] at hw
      rcases hw with h | h | h | h | h <;> simp_all)

/-- Claim C10: once the pipeline has completed with payload v, the
`/texture` endpoint answers every request with that same shared payload —
the `texture` and `id` query parameters are never consulted, never select a
different payload, and never cause a rejection. -/
theorem c10_texture_params_ignored (s : TexState) (v : Nat)
    (h : s.cached = some v) (n1 n2 : String) (id1 id2 : Nat) :
    textureHandler n1 id1 s = some v ∧
    textureHandler n1 id1 s = textureHandler n2 id2 s := by
  exact ⟨h, rfl⟩

/-- Witness for C10 at a completed pipeline and two unrelated queries. -/
theorem c10_texture_params_ignored_witness :
    textureHandler ("colorMap") 1
        { computeRuns := 1, cached := some 7, pending := 0,
          delivered := [] } = some 7 ∧
    textureHandler ("colorMap") 1
        { computeRuns := 1, cached := some 7, pending := 0,
          delivered := [] } =
      textureHandler ("bogus") 42
        { computeRuns := 1, cached := some 7, pending := 0,
          delivered := [] } :=
  c10_texture_params_ignored
    { computeRuns := 1, cached := some 7, pending := 0, delivered := [] }
    7 rfl ("colorMap") ("bogus") 1 42

end StreamGL
